import Mathlib

/-!
A shallow embedding of the model layer of the Django-Dynamic-Table
repository (django_dynamic_table/models.py together with
django_dynamic_table/errors.py), and theorems checking the
natural-language specification of the repository against it.

Conventions of the embedding:

* Python machine floats are modelled as rationals; the model covers the
  finite decimal float literals that the table code manipulates
  (non-finite literals such as "inf" cannot be stored through the write
  path, which would stop with an uncaught OverflowError before storing).
* A Django model instance is persisted state; the database is carried
  explicitly in a `DynamicTable` record.  A `TextField` stores the
  Python str() rendering of whatever value the instance field holds at
  save time, so the stored form of a cell is modelled as a `String`.
* Exceptions are modelled with `Except`; each error constructor names
  the exception class raised by the source.
-/

namespace DjangoDynamicTable

/-- A Python runtime value, restricted to the kinds of values that flow
through the table API: strings, integers, floats (modelled as rationals),
booleans, datetime objects (carried as their ISO-8601 serialization), and
the value None. -/
inductive PyVal where
  | str (s : String)
  | int (n : Int)
  | float (q : ℚ)
  | bool (b : Bool)
  | date (iso : String)
  | none
deriving DecidableEq

/-- The exception kinds raised by the embedded code paths: the classes of
django_dynamic_table/errors.py, Django's MultipleObjectsReturned, and the
Python builtin TypeError (raised by float() on a non-numeric object). -/
inductive PyErr where
  | dynamicTableError
  | tableHaveNoColumn
  | columnNotInTable
  | rowNotInTable
  | duplicateColumnInTable
  | unSupportedDataType
  | cantParseValueToDataType
  | cellDoesNotExist
  | multipleObjectsReturned
  | typeError
deriving DecidableEq

/-- Equality of embedded results is decidable, so concrete runs can be
settled by evaluation. -/
instance {ε α : Type} [DecidableEq ε] [DecidableEq α] : DecidableEq (Except ε α)
  | Except.error a, Except.error b =>
    if h : a = b then Decidable.isTrue (h ▸ rfl)
    else Decidable.isFalse (fun hc => h (by cases hc; rfl))
  | Except.error _, Except.ok _ => Decidable.isFalse (fun hc => Except.noConfusion hc)
  | Except.ok _, Except.error _ => Decidable.isFalse (fun hc => Except.noConfusion hc)
  | Except.ok a, Except.ok b =>
    if h : a = b then Decidable.isTrue (h ▸ rfl)
    else Decidable.isFalse (fun hc => h (by cases hc; rfl))

/-- Python truthiness (`if value:`): empty string, zero, False and None
are falsy; a datetime object is always truthy. -/
def pyTruthy : PyVal → Bool
  | PyVal.str s => s ≠ ""
  | PyVal.int n => n ≠ 0
  | PyVal.float q => q ≠ 0
  | PyVal.bool b => b
  | PyVal.date _ => true
  | PyVal.none => false

/-- The whitespace characters Python str.strip removes. -/
def pyIsSpace (c : Char) : Bool :=
  c == ' ' || c == '\t' || c == '\n' || c == '\r' || c == '\x0b' || c == '\x0c'

/-- Python str.strip(): surrounding whitespace removed. -/
def pyStrip (s : String) : String :=
  String.mk (((s.data.dropWhile pyIsSpace).reverse.dropWhile pyIsSpace).reverse)

/-- Python str.lower() on ASCII text. -/
def pyLower (s : String) : String :=
  String.mk (s.data.map Char.toLower)

/-- Value of a list of decimal digit characters. -/
def digitsToNat (cs : List Char) : Nat :=
  cs.foldl (fun a c => a * 10 + (c.toNat - 48)) 0

/-- Exponent part of a Python float literal: an optional sign followed by
at least one digit.  Returns (well-formed, value, remaining input). -/
def parseExpPart (cs : List Char) : Bool × Int × List Char :=
  let signed : Int × List Char :=
    match cs with
    | '-' :: rest => (-1, rest)
    | '+' :: rest => (1, rest)
    | _ => (1, cs)
  let ds := signed.2.takeWhile Char.isDigit
  let rest := signed.2.dropWhile Char.isDigit
  if ds.isEmpty then (false, 0, rest)
  else (true, signed.1 * (digitsToNat ds : Int), rest)

/-- The Python builtin float() applied to a string: strips surrounding
whitespace, then accepts an optional sign, a digit string with an
optional fractional part (at least one digit overall), and an optional
exponent.  Returns `Option.none` where Python raises ValueError.  The
model covers finite decimal literals; the special spellings "inf" and
"nan" and digit-group underscores are treated as parse failures, and no
input of that shape is exercised by this development. -/
def pyParseFloat (s : String) : Option ℚ :=
  let cs := (pyStrip s).data
  let signed : ℚ × List Char :=
    match cs with
    | '-' :: rest => (-1, rest)
    | '+' :: rest => (1, rest)
    | _ => (1, cs)
  let intDigits := signed.2.takeWhile Char.isDigit
  let afterInt := signed.2.dropWhile Char.isDigit
  let fracAndRest : List Char × List Char :=
    match afterInt with
    | '.' :: rest => (rest.takeWhile Char.isDigit, rest.dropWhile Char.isDigit)
    | _ => ([], afterInt)
  let fracDigits := fracAndRest.1
  let afterFrac := fracAndRest.2
  if intDigits.isEmpty && fracDigits.isEmpty then Option.none
  else
    let expPart : Bool × Int × List Char :=
      match afterFrac with
      | 'e' :: rest => parseExpPart rest
      | 'E' :: rest => parseExpPart rest
      | _ => (true, 0, afterFrac)
    if expPart.1 && expPart.2.2.isEmpty then
      let mant : ℚ := signed.1 *
        ((digitsToNat intDigits : ℚ) +
          (digitsToNat fracDigits : ℚ) / ((10 : ℚ) ^ fracDigits.length))
      Option.some (mant * (10 : ℚ) ^ expPart.2.1)
    else Option.none

/-- Decimal digits of the fractional part rem/den, produced with fuel;
17 digits suffice for every value this development evaluates. -/
def fracDigitsAux (fuel rem den : Nat) : String :=
  match fuel with
  | 0 => ""
  | f + 1 =>
    if rem == 0 then ""
    else
      let r10 := rem * 10
      toString (r10 / den) ++ fracDigitsAux f (r10 % den) den

/-- Python str()/repr() of a float, modelled on terminating decimals
(the only float renderings this development evaluates): an integral
float renders with a trailing ".0", e.g. str(30.0) = "30.0". -/
def floatRepr (q : ℚ) : String :=
  let sign := if q < 0 then "-" else ""
  let n := q.num.natAbs
  let d := q.den
  let frac := fracDigitsAux 17 (n % d) d
  sign ++ toString (n / d) ++ "." ++ (if frac = "" then "0" else frac)

/-- Python int() applied to a float: truncation toward zero. -/
def ratTrunc (q : ℚ) : Int :=
  q.num.tdiv (q.den : Int)

/-- Worker for pyTitle: upper-cases a letter that does not follow a
letter and lower-cases one that does. -/
def pyTitleGo : Bool → List Char → List Char
  | _, [] => []
  | prevAlpha, c :: rest =>
    if c.isAlpha then
      (if prevAlpha then c.toLower else c.toUpper) :: pyTitleGo true rest
    else
      c :: pyTitleGo false rest

/-- Python str.title() on ASCII text: the first letter of every run of
letters is upper-cased and the following letters are lower-cased. -/
def pyTitle (s : String) : String :=
  String.mk (pyTitleGo false s.data)

/-- Python datetime.fromisoformat followed by isoformat(), modelled on
the canonical shapes YYYY-MM-DD and YYYY-MM-DD*HH:MM:SS with a T, t or
space separator; component range validation is omitted.  The branch of
the source that calls it is unreachable for columns created through the
table API, because no supported data type is named "datetime". -/
def fromisoformat (s : String) : Option String :=
  match s.data with
  | [y1, y2, y3, y4, '-', m1, m2, '-', d1, d2] =>
    if [y1, y2, y3, y4, m1, m2, d1, d2].all Char.isDigit then
      Option.some (String.mk [y1, y2, y3, y4, '-', m1, m2, '-', d1, d2] ++ "T00:00:00")
    else Option.none
  | [y1, y2, y3, y4, '-', m1, m2, '-', d1, d2, sep, h1, h2, ':', i1, i2, ':', s1, s2] =>
    if ([y1, y2, y3, y4, m1, m2, d1, d2, h1, h2, i1, i2, s1, s2].all Char.isDigit)
        && (sep == 'T' || sep == 't' || sep == ' ') then
      Option.some (String.mk [y1, y2, y3, y4, '-', m1, m2, '-', d1, d2, 'T', h1, h2, ':', i1, i2, ':', s1, s2])
    else Option.none
  | _ => Option.none

/-- Python str() of a value.  str() of a datetime object uses a space
separator between date and time, not the T of isoformat(); an ISO string
has a single T, so replacing every T is the same substitution. -/
def pyStr : PyVal → String
  | PyVal.str s => s
  | PyVal.int n => toString n
  | PyVal.float q => floatRepr q
  | PyVal.bool b => if b then "True" else "False"
  | PyVal.date iso => String.mk (iso.data.map (fun c => if c == 'T' then ' ' else c))
  | PyVal.none => "None"

/-- Python float() on an arbitrary value: parses strings, converts
numbers and booleans, and fails (TypeError) on objects of other types. -/
def pyFloatOf : PyVal → Option ℚ
  | PyVal.str s => pyParseFloat s
  | PyVal.int n => Option.some (n : ℚ)
  | PyVal.float q => Option.some q
  | PyVal.bool b => Option.some (if b then 1 else 0)
  | PyVal.date _ => Option.none
  | PyVal.none => Option.none

/-- The exception float() raises on a given unparseable value: ValueError
on a string (caught by the source and re-raised as
CantParseValueToDataType) and TypeError otherwise (uncaught). -/
def floatFailureErr : PyVal → PyErr
  | PyVal.str _ => PyErr.cantParseValueToDataType
  | _ => PyErr.typeError

/-- CellValue.__validate_data_type__ (models.py lines 333-384) combined
with the save that follows it: returns the string the database stores
for the cell (str() of the instance field at save time), or the
exception the save raises.  Branch by branch:
* char/textfield store str(value);
* int keeps an int (or bool, since isinstance(True, int) holds in
  Python) unchanged, stores "" for other falsy input, otherwise stores
  int(float(value)), raising CantParseValueToDataType when the parse
  fails with ValueError;
* float is analogous, keeping a float unchanged;
* the branch labelled "datetime" parses an ISO string (after
  strip().lower()), stores "" when unparseable, serializes a datetime
  object with isoformat(), and stores "" for objects without isoformat
  (the AttributeError is caught by the bare except);
* bool keeps a truthy bool, compares str(value).strip().title() against
  "True"/"False", and stores "" for falsy input;
* a data type matching no branch (for example "date", the name the type
  registry declares) leaves the value unvalidated: str(value) is stored
  verbatim. -/
def validate_data_type (value : PyVal) (data_type : String) : Except PyErr String :=
  if data_type == "char" || data_type == "textfield" then
    Except.ok (pyStr value)
  else if data_type == "int" then
    match value with
    | PyVal.int n => Except.ok (toString n)
    | PyVal.bool b => Except.ok (pyStr (PyVal.bool b))
    | v =>
      if pyTruthy v then
        match pyFloatOf v with
        | Option.some q => Except.ok (toString (ratTrunc q))
        | Option.none => Except.error (floatFailureErr v)
      else Except.ok ""
  else if data_type == "float" then
    match value with
    | PyVal.float q => Except.ok (floatRepr q)
    | v =>
      if pyTruthy v then
        match pyFloatOf v with
        | Option.some q => Except.ok (floatRepr q)
        | Option.none => Except.error (floatFailureErr v)
      else Except.ok ""
  else if data_type == "datetime" then
    if pyTruthy value then
      match value with
      | PyVal.str s =>
        match fromisoformat (pyLower (pyStrip s)) with
        | Option.some iso => Except.ok iso
        | Option.none => Except.ok ""
      | PyVal.date iso => Except.ok iso
      | _ => Except.ok ""
    else Except.ok ""
  else if data_type == "bool" then
    if pyTruthy value then
      match value with
      | PyVal.bool b => Except.ok (pyStr (PyVal.bool b))
      | v =>
        let tv := pyTitle (pyStrip (pyStr v))
        if tv == "True" then Except.ok "True"
        else if tv == "False" then Except.ok "False"
        else Except.error PyErr.cantParseValueToDataType
    else Except.ok ""
  else
    Except.ok (pyStr value)

/-- Python eval() as get_value applies it to the stored text of a bool
column.  The write path stores only "True", "False" or "" under a bool
column; the model maps the two boolean literals to booleans and treats
every other string as an eval failure (as the empty string is: a
SyntaxError caught by the bare except of the caller). -/
def pyBoolLiteral (s : String) : Option PyVal :=
  if s == "True" then Option.some (PyVal.bool true)
  else if s == "False" then Option.some (PyVal.bool false)
  else Option.none

/-- CellValue.get_value (models.py lines 386-419): re-parses the stored
string according to the declared column type, returning the raw stored
string when the parse fails.  A data type matching no branch (for
example "date") falls off the end of the function: Python returns None. -/
def get_value (stored : String) (data_type : String) : PyVal :=
  if data_type == "char" || data_type == "textfield" then
    PyVal.str stored
  else if data_type == "int" then
    match pyParseFloat stored with
    | Option.some q => PyVal.int (ratTrunc q)
    | Option.none => PyVal.str stored
  else if data_type == "float" then
    match pyParseFloat stored with
    | Option.some q => PyVal.float q
    | Option.none => PyVal.str stored
  else if data_type == "bool" then
    match pyBoolLiteral stored with
    | Option.some v => v
    | Option.none => PyVal.str stored
  else if data_type == "datetime" then
    match fromisoformat stored with
    | Option.some iso => PyVal.date iso
    | Option.none => PyVal.str stored
  else
    PyVal.none

/-- A TableColumn record (models.py lines 283-295): a name and the
declared data type, stored exactly as the caller supplied them. -/
structure TableColumn where
  column_name : String
  column_data_type : String
deriving DecidableEq

/-- A persisted CellValue record (models.py lines 313-331): the stored
text together with its column and row foreign keys.  The table foreign
key is implicit: the model carries a single table. -/
structure CellValue where
  value : String
  column_name : String
  row_id : Nat
deriving DecidableEq

/-- The persisted state reachable from one DynamicTable record
(models.py lines 37-47):
* `table_columns` is the table_columns many-to-many set, in creation
  order (column names are unique, so it doubles as the column store);
* `table_rows` is the table_rows many-to-many set, holding row ids in
  attach order;
* `row_objects` is the set of TableRow records created with this table
  as foreign key, in creation order: add_row creates the record before
  filling cells, so it can contain rows never attached to `table_rows`;
* `cell_objects` is the set of persisted CellValue records, in creation
  order;
* `next_row_id` is the next primary key the database will assign to a
  TableRow (Django primary keys start at 1).
Each cell is added to the column_cells set of its column immediately
after being persisted, so that relation coincides with the cells of
`cell_objects` carrying the column's name and is not tracked
separately. -/
structure DynamicTable where
  table_columns : List TableColumn
  table_rows : List Nat
  row_objects : List Nat
  cell_objects : List CellValue
  next_row_id : Nat
deriving DecidableEq

/-- A freshly created table: no columns, rows or cells. -/
def empty_table : DynamicTable :=
  { table_columns := [], table_rows := [], row_objects := [],
    cell_objects := [], next_row_id := 1 }

/-- DynamicTable.__total_table_rows (models.py lines 52-59).  The source
fetches table_columns.first() and, when a column exists, returns
table_columns.all().count() — the column count — and otherwise 0. -/
def total_table_rows (t : DynamicTable) : Nat :=
  match t.table_columns.head? with
  | Option.some _ => t.table_columns.length
  | Option.none => 0

/-- DynamicTable.__total_table_columns (models.py lines 61-62). -/
def total_table_columns (t : DynamicTable) : Nat :=
  t.table_columns.length

/-- The dictionary returned by DynamicTable.table_info
(models.py lines 64-69). -/
structure TableInfo where
  rows : Nat
  columns : Nat
deriving DecidableEq

/-- DynamicTable.table_info (models.py lines 64-69). -/
def table_info (t : DynamicTable) : TableInfo :=
  { rows := total_table_rows t, columns := total_table_columns t }

/-- DynamicTable.is_empty (models.py lines 71-77). -/
def is_empty (t : DynamicTable) : Bool :=
  (table_info t).columns == 0 || (table_info t).rows == 0

/-- DynamicTable.is_column (models.py lines 79-87), restricted to string
arguments (the embedding is typed, so the ValueError branch for
non-string arguments has no counterpart). -/
def is_column (t : DynamicTable) (column_name : String) : Bool :=
  t.table_columns.any (fun c => c.column_name == column_name)

/-- DynamicTable.get_supported_data_types (models.py lines 89-90),
reading the first components of __SUPPORTED_DATA_TYPE_CHOICES__
(models.py lines 26-33). -/
def get_supported_data_types : List String :=
  ["char", "int", "float", "bool", "textfield", "date"]

/-- DynamicTable.data_type_is_supported (models.py lines 92-100) on a
single string: the argument is lower-cased, stripped and looked up in
the supported list. -/
def data_type_is_supported (data_type : String) : Bool :=
  get_supported_data_types.contains (pyStrip (pyLower data_type))

/-- DynamicTable.add_column (models.py lines 102-120), restricted to
string arguments: checks the (normalized) data type is supported, then
that the name is not already a column, and only then creates a
TableColumn storing the caller's raw strings verbatim and attaches it. -/
def add_column (t : DynamicTable) (column_name data_type : String) :
    DynamicTable × Except PyErr TableColumn :=
  if data_type_is_supported data_type = false then
    (t, Except.error PyErr.unSupportedDataType)
  else if is_column t column_name = true then
    (t, Except.error PyErr.duplicateColumnInTable)
  else
    ({ t with table_columns := t.table_columns ++ [TableColumn.mk column_name data_type] },
      Except.ok (TableColumn.mk column_name data_type))

/-- DynamicTable.bulk_add_columns (models.py lines 122-157), restricted
to list arguments: checks equal lengths, then that every data type is
supported, then that the input names contain no duplicate (comparing the
list's length with its set's size), then that no name is already a
column; only after every check pass are the columns created and
attached, in input order. -/
def bulk_add_columns (t : DynamicTable) (column_names data_types : List String) :
    DynamicTable × Except PyErr (List TableColumn) :=
  if column_names.length ≠ data_types.length then
    (t, Except.error PyErr.dynamicTableError)
  else if false ∈ data_types.map data_type_is_supported then
    (t, Except.error PyErr.unSupportedDataType)
  else if column_names.length ≠ column_names.eraseDups.length then
    (t, Except.error PyErr.duplicateColumnInTable)
  else if true ∈ column_names.map (is_column t) then
    (t, Except.error PyErr.duplicateColumnInTable)
  else
    let cols := List.zipWith
      (fun n d => TableColumn.mk n d) column_names data_types
    ({ t with table_columns := t.table_columns ++ cols }, Except.ok cols)

/-- dict.get(column_name, "") on the mapping passed to add_row
(models.py line 170): the first entry with the key, defaulting to the
empty string. -/
def dict_get (value : List (String × PyVal)) (key : String) : PyVal :=
  match value.find? (fun p => p.1 == key) with
  | Option.some p => p.2
  | Option.none => PyVal.str ""

/-- The cell-creation loop of DynamicTable.add_row (models.py lines
166-187).  For each column, in order: the supplied value is looked up by
column name with default "", the cell is persisted (running the data
type validation; a failure stops the loop, leaving the cells already
persisted in place) and attached to its column.  After the loop the row
is attached to the table.  The row_cells attachment of the source
(models.py line 183) adds the same cells the row foreign key already
records and is not tracked separately. -/
def add_row_cells (t : DynamicTable) (row_id : Nat) (cols : List TableColumn)
    (value : List (String × PyVal)) : DynamicTable × Except PyErr Nat :=
  match cols with
  | [] => ({ t with table_rows := t.table_rows ++ [row_id] }, Except.ok row_id)
  | c :: rest =>
    match validate_data_type (dict_get value c.column_name) c.column_data_type with
    | Except.error e => (t, Except.error e)
    | Except.ok stored =>
      add_row_cells
        { t with cell_objects :=
            t.cell_objects ++ [CellValue.mk stored c.column_name row_id] }
        row_id rest value

/-- DynamicTable.add_row (models.py lines 159-187), restricted to
mapping arguments: fails with TableHaveNoColumn on a columnless table;
otherwise persists a fresh TableRow record first and then fills one cell
per column.  A coercion failure propagates after the row record and the
cells of the earlier columns have already been persisted; only on
success is the row attached to table_rows. -/
def add_row (t : DynamicTable) (value : List (String × PyVal)) :
    DynamicTable × Except PyErr Nat :=
  if total_table_columns t = 0 then
    (t, Except.error PyErr.tableHaveNoColumn)
  else
    add_row_cells
      { t with row_objects := t.row_objects ++ [t.next_row_id],
               next_row_id := t.next_row_id + 1 }
      t.next_row_id t.table_columns value

/-- DynamicTable.bulk_add_rows (models.py lines 189-201), restricted to
a list of mappings: iterates over the elements, re-checking inside the
loop that the table still has a column before delegating to add_row, and
collects the created row ids.  On an empty list the loop body never
runs and the empty list is returned. -/
def bulk_add_rows (t : DynamicTable) (values : List (List (String × PyVal))) :
    DynamicTable × Except PyErr (List Nat) :=
  match values with
  | [] => (t, Except.ok [])
  | v :: rest =>
    if total_table_columns t = 0 then
      (t, Except.error PyErr.tableHaveNoColumn)
    else
      match add_row t v with
      | (t1, Except.error e) => (t1, Except.error e)
      | (t1, Except.ok rid) =>
        match bulk_add_rows t1 rest with
        | (t2, Except.error e) => (t2, Except.error e)
        | (t2, Except.ok rids) => (t2, Except.ok (rid :: rids))

/-- DynamicTable.get_cell (models.py lines 246-259), with the row index
already an integer: checks the column exists, then performs
CellValue.objects.get filtered by the column name and the row foreign
key.  No match raises CellDoesNotExist; several matches would raise
MultipleObjectsReturned. -/
def get_cell (t : DynamicTable) (column_name : String) (row_index : Nat) :
    Except PyErr CellValue :=
  if is_column t column_name = false then
    Except.error PyErr.columnNotInTable
  else
    match t.cell_objects.filter
        (fun c => c.column_name == column_name && c.row_id == row_index) with
    | [] => Except.error PyErr.cellDoesNotExist
    | [c] => Except.ok c
    | _ => Except.error PyErr.multipleObjectsReturned

/-- DynamicTable.get_column_cells (models.py lines 261-268): checks the
column exists and returns its column_cells set, which (cells being
attached immediately after creation) is the list of persisted cells
carrying the column's name, in creation order. -/
def get_column_cells (t : DynamicTable) (column_name : String) :
    Except PyErr (List CellValue) :=
  if is_column t column_name = false then
    Except.error PyErr.columnNotInTable
  else
    Except.ok (t.cell_objects.filter (fun c => c.column_name == column_name))

/-! ### General lemmas about the embedded operations -/

/-- The empty-string default that add_row supplies for a missing key
coerces to the empty stored string under every declared column data
type (including a type matching no coercion branch). -/
theorem validate_data_type_empty_string (data_type : String) :
    validate_data_type (PyVal.str "") data_type = Except.ok "" := by
  unfold validate_data_type
  split
  · rfl
  · split
    · rfl
    · split
      · rfl
      · split
        · rfl
        · split
          · rfl
          · rfl

/-! ### C1 -/

/-- **C1** (code_bug evidence).  The claim says the rows entry of
table_info equals the number of rows currently in the table.  Evaluating
the embedded code on a reachable table with one column and zero rows:
table_info reports one row (its private row counter queries the
table_columns relation, so the rows entry equals the column count) while
the table_rows relation is empty. -/
theorem c1_table_info_rows_counts_columns :
    table_info (add_column empty_table "Name" "char").1 = TableInfo.mk 1 1
    ∧ (add_column empty_table "Name" "char").1.table_rows.length = 0 := by
  decide

/-! ### C2 -/

/-- The table used to exhibit the behaviour of a failing add_row: a char
column followed by an int column, in that creation order. -/
def c2_table : DynamicTable :=
  (bulk_add_columns empty_table ["First Name", "Age"] ["char", "int"]).1

/-- The row mapping whose Age entry cannot be parsed as a number. -/
def c2_row : List (String × PyVal) :=
  [("First Name", PyVal.str "Samuel"), ("Age", PyVal.str "3o")]

/-- **C2** (code_bug evidence).  The claim says a failing add_row leaves
the row count and the set of cells visible to later reads unchanged.
Evaluating the embedded code: add_row on the mapping with Age = "3o"
does raise CantParseValueToDataType and leaves table_rows unchanged, but
the cell created for the earlier char column has been persisted and is
visible to a later get_cell read (it was absent before the call), and an
orphan TableRow record has been persisted as well. -/
theorem c2_failed_add_row_leaves_partial_state :
    (add_row c2_table c2_row).2 = Except.error PyErr.cantParseValueToDataType
    ∧ (add_row c2_table c2_row).1.table_rows = c2_table.table_rows
    ∧ get_cell c2_table "First Name" 1 = Except.error PyErr.cellDoesNotExist
    ∧ get_cell (add_row c2_table c2_row).1 "First Name" 1
        = Except.ok (CellValue.mk "Samuel" "First Name" 1)
    ∧ (add_row c2_table c2_row).1.row_objects.length
        = c2_table.row_objects.length + 1 := by
  decide

/-! ### C3 -/

/-- **C3** (code_bug evidence).  The claim says a cell under a column of
declared type date re-serializes parseable ISO input, stores the empty
string for unparseable input, and serializes a native date to ISO form.
Evaluating the embedded coercion: under the declared type "date" an
unparseable string is stored verbatim (not as the empty string) and a
native datetime is stored in the str() space-separated rendering (not
isoformat), because the coercion branch tests the name "datetime", which
the type registry never allows as a column type; under that dead name
the claimed behaviour does appear. -/
theorem c3_date_cells_skip_coercion :
    validate_data_type (PyVal.str "not-a-date") "date" = Except.ok "not-a-date"
    ∧ validate_data_type (PyVal.date "2020-05-17T10:30:00") "date"
        = Except.ok "2020-05-17 10:30:00"
    ∧ validate_data_type (PyVal.str "not-a-date") "datetime" = Except.ok "" := by
  decide

/-! ### C4 -/

/-- The table used to exhibit get_value on a date column. -/
def c4_table : DynamicTable :=
  (add_column empty_table "When" "date").1

/-- **C4** (code_bug evidence).  The claim says get_value re-parses the
stored string per the declared type and returns the raw stored string
(not None) when the parse fails.  Evaluating the embedded code: a cell
holding the unparseable text "hello" is reachable under a date column
(the write path stores it verbatim), and get_value on it returns None —
every branch of get_value tests other type names ("datetime" instead of
"date"), so the function falls off its end. -/
theorem c4_get_value_returns_none_for_date_cells :
    (add_row c4_table [("When", PyVal.str "hello")]).2 = Except.ok 1
    ∧ get_cell (add_row c4_table [("When", PyVal.str "hello")]).1 "When" 1
        = Except.ok (CellValue.mk "hello" "When" 1)
    ∧ get_value "hello" "date" = PyVal.none
    ∧ get_value "hello" "date" ≠ PyVal.str "hello" := by
  decide

/-! ### C5 -/

/-- **C5** (code_bug evidence).  The claim says coercing any valid
literal of a supported type and decoding the stored form yields the
original value.  Evaluating the embedded code at the valid bool literal
False: the coercion stores the empty string (the falsy input collapse),
which decodes to the empty string, not False.  The round trip also fails
for the whole date type, whose stored forms decode to None. -/
theorem c5_round_trip_fails_for_false_and_dates :
    validate_data_type (PyVal.bool false) "bool" = Except.ok ""
    ∧ get_value "" "bool" = PyVal.str ""
    ∧ get_value "" "bool" ≠ PyVal.bool false
    ∧ validate_data_type (PyVal.date "2020-05-17T10:30:00") "date"
        = Except.ok "2020-05-17 10:30:00"
    ∧ get_value "2020-05-17 10:30:00" "date" = PyVal.none := by
  decide

/-! ### C6 -/

/-- **C6** (confirmed).  bulk_add_columns called with a name list
containing a duplicate (all data types supported, lengths equal) raises
DuplicateColumnInTable and leaves the table unchanged; and, generally,
whenever bulk_add_columns fails no column is created or attached — the
creation happens only after every validation check has passed. -/
theorem c6_bulk_add_columns_duplicates_all_or_nothing
    (t : DynamicTable) (column_names data_types : List String)
    (hlen : column_names.length = data_types.length)
    (hsup : false ∉ data_types.map data_type_is_supported)
    (hdup : column_names.length ≠ column_names.eraseDups.length) :
    bulk_add_columns t column_names data_types
      = (t, Except.error PyErr.duplicateColumnInTable)
    ∧ ∀ (t2 : DynamicTable) (ns ds : List String) (e : PyErr),
        (bulk_add_columns t2 ns ds).2 = Except.error e →
        (bulk_add_columns t2 ns ds).1 = t2 := by
  constructor
  · unfold bulk_add_columns
    rw [if_neg (fun hc => hc hlen), if_neg hsup, if_pos hdup]
  · intro t2 ns ds e h
    by_cases h1 : ns.length ≠ ds.length
    · simp [bulk_add_columns, h1]
    · by_cases h2 : false ∈ ds.map data_type_is_supported
      · simp [bulk_add_columns, h1, h2]
      · by_cases h3 : ns.length ≠ ns.eraseDups.length
        · simp [bulk_add_columns, h1, h2, h3]
        · by_cases h4 : true ∈ ns.map (is_column t2)
          · simp [bulk_add_columns, h1, h2, h3, h4]
          · exfalso
            simp [bulk_add_columns, h1, h2, h3, h4] at h

/-- Witness for C6, at the input the specification names: duplicate
names ["A", "A"] with types ["char", "char"] on a fresh table. -/
theorem c6_witness :
    bulk_add_columns empty_table ["A", "A"] ["char", "char"]
      = (empty_table, Except.error PyErr.duplicateColumnInTable) :=
  (c6_bulk_add_columns_duplicates_all_or_nothing empty_table ["A", "A"] ["char", "char"]
    (by decide) (by decide) (by decide)).1

/-! ### C7 -/

/-- **C7** (counterexample).  The claim says bulk_add_rows on a
columnless table raises TableHaveNoColumn for any sequence argument,
including the empty sequence.  Evaluating the embedded code on the
concrete input: a fresh table (which has zero columns) with the empty
sequence returns the empty list of rows without any error, because the
no-column check sits inside the per-element loop. -/
theorem c7_counterexample_empty_sequence :
    bulk_add_rows empty_table [] = (empty_table, Except.ok []) := by
  rfl

/-- **C7** (amended).  For every table with zero columns, bulk_add_rows
with a nonempty sequence of mappings raises TableHaveNoColumn at the
first element, before any row is created, and the table is unchanged;
the empty sequence instead returns the empty list without raising (the
counterexample above). -/
theorem c7_amended_nonempty_fails_fast
    (t : DynamicTable) (values : List (List (String × PyVal)))
    (hcols : t.table_columns = []) (hne : values ≠ []) :
    bulk_add_rows t values = (t, Except.error PyErr.tableHaveNoColumn) := by
  cases values with
  | nil => exact absurd rfl hne
  | cons v rest =>
    unfold bulk_add_rows
    rw [if_pos (show total_table_columns t = 0 by
      simp [total_table_columns, List.length_eq_zero, hcols])]

/-- Witness for C7's amended statement: a fresh table and a singleton
sequence holding one mapping. -/
theorem c7_witness :
    bulk_add_rows empty_table [[("Age", PyVal.str "31")]]
      = (empty_table, Except.error PyErr.tableHaveNoColumn) :=
  c7_amended_nonempty_fails_fast empty_table [[("Age", PyVal.str "31")]] rfl (by decide)

/-! ### C8 -/

/-- The cell-creation loop of add_row, when every needed coercion
succeeds, appends exactly one cell per column, in column order, each
holding the stored form of the value looked up by column name (with the
empty-string default), and finally attaches the row. -/
theorem add_row_cells_ok (cols : List TableColumn) (t : DynamicTable)
    (row_id : Nat) (value : List (String × PyVal))
    (hok : ∀ c ∈ cols,
      (validate_data_type (dict_get value c.column_name) c.column_data_type).isOk = true) :
    add_row_cells t row_id cols value
      = ({ t with
            cell_objects := t.cell_objects ++ cols.map (fun c =>
              CellValue.mk
                ((validate_data_type (dict_get value c.column_name)
                    c.column_data_type).toOption.getD "")
                c.column_name row_id),
            table_rows := t.table_rows ++ [row_id] },
          Except.ok row_id) := by
  revert hok
  induction cols generalizing t with
  | nil =>
    intro hok
    simp [add_row_cells]
  | cons c rest ih =>
    intro hok
    have hc := hok c (List.mem_cons_self c rest)
    cases hv : validate_data_type (dict_get value c.column_name) c.column_data_type with
    | error e =>
      rw [hv] at hc
      exact Bool.noConfusion hc
    | ok stored =>
      have hstep : add_row_cells t row_id (c :: rest) value
          = add_row_cells
              { t with cell_objects :=
                  t.cell_objects ++ [CellValue.mk stored c.column_name row_id] }
              row_id rest value := by
        conv_lhs => unfold add_row_cells
        rw [hv]
      rw [hstep, ih _ (fun c2 hc2 => hok c2 (List.mem_cons_of_mem c hc2))]
      simp [hv, Except.toOption, List.append_assoc]

/-- **C8** (confirmed).  For a table with at least one column, add_row
with a mapping whose keys may omit columns (or name no column at all)
succeeds whenever every supplied value coerces: one cell is created per
column, in column-creation order, holding the stored form of the value
looked up by column name with the empty-string default, and every
column absent from the mapping gets the blank stored value. -/
theorem c8_add_row_gap_fills_missing_columns
    (t : DynamicTable) (value : List (String × PyVal))
    (hne : t.table_columns ≠ [])
    (hok : ∀ c ∈ t.table_columns,
      (validate_data_type (dict_get value c.column_name) c.column_data_type).isOk = true) :
    add_row t value
      = ({ t with
            row_objects := t.row_objects ++ [t.next_row_id],
            next_row_id := t.next_row_id + 1,
            cell_objects := t.cell_objects ++ t.table_columns.map (fun c =>
              CellValue.mk
                ((validate_data_type (dict_get value c.column_name)
                    c.column_data_type).toOption.getD "")
                c.column_name t.next_row_id),
            table_rows := t.table_rows ++ [t.next_row_id] },
          Except.ok t.next_row_id)
    ∧ ∀ c ∈ t.table_columns,
        value.find? (fun p => p.1 == c.column_name) = Option.none →
        validate_data_type (dict_get value c.column_name) c.column_data_type
          = Except.ok "" := by
  constructor
  · unfold add_row
    rw [if_neg (show ¬ total_table_columns t = 0 by
      simp [total_table_columns, List.length_eq_zero, hne])]
    rw [add_row_cells_ok t.table_columns _ t.next_row_id value hok]
  · intro c hc hfind
    unfold dict_get
    rw [hfind]
    exact validate_data_type_empty_string c.column_data_type

/-- The one-column table used as the concrete C8 input. -/
def c8_table : DynamicTable :=
  (add_column empty_table "First Name" "char").1

/-- Witness for C8: a mapping naming only an unknown column still
produces a row whose single cell is blank. -/
theorem c8_witness :
    add_row c8_table [("Nickname", PyVal.str "Sam")]
      = ({ c8_table with
            row_objects := [1], next_row_id := 2,
            cell_objects := [CellValue.mk "" "First Name" 1],
            table_rows := [1] },
          Except.ok 1) := by
  have h := c8_add_row_gap_fills_missing_columns c8_table
    [("Nickname", PyVal.str "Sam")] (by decide) (by decide)
  exact h.1

/-! ### C9 -/

/-- **C9** (confirmed).  Under the declared type bool, every falsy input
(the boolean False, the number 0, the empty string, ...) is stored as
the empty string, the same stored value a never-supplied column gets
(add_row's default is the empty string), so a legitimate False is
indistinguishable after storage from an absent value; only truthy
inputs reach the "True"/"False" textual comparison. -/
theorem c9_bool_falsy_inputs_store_empty (v : PyVal) (h : pyTruthy v = false) :
    validate_data_type v "bool" = Except.ok ""
    ∧ validate_data_type v "bool" = validate_data_type (PyVal.str "") "bool" := by
  cases v with
  | str s =>
    have hs : s = "" := by simpa [pyTruthy] using h
    subst hs
    exact ⟨validate_data_type_empty_string "bool", rfl⟩
  | int n =>
    have hn : n = 0 := by simpa [pyTruthy] using h
    subst hn
    exact ⟨by decide, by decide⟩
  | float q =>
    have hq : q = 0 := by simpa [pyTruthy] using h
    subst hq
    exact ⟨by decide, by decide⟩
  | bool b =>
    have hb : b = false := by simpa [pyTruthy] using h
    subst hb
    exact ⟨by decide, by decide⟩
  | date iso => simp [pyTruthy] at h
  | none => exact ⟨by decide, by decide⟩

/-- Witness for C9, at the boolean False itself. -/
theorem c9_witness :
    validate_data_type (PyVal.bool false) "bool" = Except.ok "" :=
  (c9_bool_falsy_inputs_store_empty (PyVal.bool false) (by decide)).1

/-! ### C10 -/

/-- **C10** (confirmed).  add_column normalizes the data type argument
(lower-case, stripped) only for the support check and stores the
caller's raw string verbatim as the column's declared type: adding a
column typed " ChAr " succeeds, and every later coercion under that
declared type matches no branch, so any value is stored as its str()
rendering with no type validation and no possibility of failure. -/
theorem c10_add_column_stores_raw_data_type
    (t : DynamicTable) (name : String)
    (hcol : is_column t name = false) :
    add_column t name " ChAr "
      = ({ t with table_columns := t.table_columns ++ [TableColumn.mk name " ChAr "] },
          Except.ok (TableColumn.mk name " ChAr "))
    ∧ data_type_is_supported " ChAr " = true
    ∧ ∀ v : PyVal, validate_data_type v " ChAr " = Except.ok (pyStr v) := by
  refine ⟨?_, by decide, fun v => rfl⟩
  unfold add_column
  rw [if_neg (by decide), if_neg (by simp [hcol])]

/-- Witness for C10, adding the " ChAr " column to a fresh table. -/
theorem c10_witness :
    add_column empty_table "Weird" " ChAr "
      = ({ empty_table with table_columns := [TableColumn.mk "Weird" " ChAr "] },
          Except.ok (TableColumn.mk "Weird" " ChAr ")) := by
  have h := c10_add_column_stores_raw_data_type empty_table "Weird" (by decide)
  exact h.1

end DjangoDynamicTable
